import Mathlib

/-!
Verification development for the pg-utils library: a shallow embedding of the
table/column metadata model, the describe and bin-count query builders, the
Freedman-Diaconis bin-width engine, the connection credential logic, and the
row-insertion logic, together with theorems settling the specified claims.

Database responses (catalog contents, column descriptions, row counts) are
modelled as explicit oracle parameters; SQL statements issued by the code are
recorded as events so that claims about what runs before an error can be
stated.  Python exceptions are modelled with `Except` over an error type that
distinguishes the exception classes the library raises.
-/

namespace PgUtils

/-- Python exception kinds raised (or propagated) by the library. -/
inductive Err where
  | valueError (msg : String)
  | keyError (msg : String)
  | noSuchColumnError (msg : String)
  | tableDoesNotExistError (msg : String)
  | dbError (msg : String)
  | typeError (msg : String)
deriving DecidableEq, Repr

/-- From `pg_utils/__init__.py`: the fixed list of numeric datatype names. -/
def numeric_datatypes : List String :=
  ["smallint", "integer", "bigint", "decimal", "numeric", "real",
   "double precision", "serial", "bigserial", "float"]

/-- Metadata state of a constructed `Table` object (`pg_utils/table/table.py`):
the selected column subset, the full catalog column list, and the
column-to-datatype mapping. -/
structure TableModel where
  schema : String
  table_name : String
  column_names : List String
  all_column_names : List String
  column_data_types : String → String

/-- Property `Table.name`: the fully-qualified name `schema.table_name`. -/
def TableModel.name (t : TableModel) : String :=
  t.schema ++ "." ++ t.table_name

/-- Property `Table.numeric_columns`: selected columns whose datatype is numeric. -/
def TableModel.numeric_columns (t : TableModel) : List String :=
  t.column_names.filter (fun c => numeric_datatypes.contains (t.column_data_types c))

/-- Method `Table.select_all_query`. -/
def TableModel.select_all_query (t : TableModel) : String :=
  "select " ++ String.intercalate "," t.column_names ++ " from " ++ t.name

/-- A `Column` object (`pg_utils/column/base.py`): its name, the
fully-qualified name of its parent table, and the numeric flag derived from
the datatype mapping of the parent. -/
structure Column where
  name : String
  parent_name : String
  is_numeric : Bool
deriving DecidableEq, Repr

/-- Construction of a `Column` from a `Table` (`Column.__init__`): the numeric
flag is `parent_table._all_column_data_types[name] in numeric_datatypes`. -/
def TableModel.columnOf (t : TableModel) (c : String) : Column :=
  ⟨c, t.name, numeric_datatypes.contains (t.column_data_types c)⟩

/-- Method `Column.select_all_query`: select the column from the parent table. -/
def Column.select_all_query (col : Column) : String :=
  "select " ++ col.name ++ " from " ++ col.parent_name

/-- The statistics of one column description (a row of the result of
`describe(columns=[c], percentiles=[0.25, 0.75])`), with real-valued entries
standing for the Python floats. -/
structure Desc where
  count : ℝ
  p25 : ℝ
  p75 : ℝ
  minimum : ℝ
  maximum : ℝ

/-- Error message raised by `num_bins` on an empty column. -/
def fdCountZeroMsg : String :=
  "Cannot compute Freedman-Diaconis bin_counts count for a count of 0"

/-- Function `num_bins` of `pg_utils/bin_counts/freedman_diaconis.py`, on a provided
description: fail on `count == 0`; otherwise compute
`h = 2 * (p75 - p25) / count ** (1/3)` and return `ceil(sqrt(count))` when
`h == 0`, else `ceil((maximum - minimum) / h)`. -/
noncomputable def num_bins (desc : Desc) : Except Err ℤ :=
  if desc.count = 0 then
    Except.error (Err.valueError fdCountZeroMsg)
  else
    let h : ℝ := 2 * (desc.p75 - desc.p25) / desc.count ^ ((1 : ℝ) / 3)
    if h = 0 then
      Except.ok ⌈Real.sqrt desc.count⌉
    else
      Except.ok ⌈(desc.maximum - desc.minimum) / h⌉

/-- Round-half-to-even to an integer, the tie behaviour of the two-decimal
Python format specifier on representable ties. -/
def roundHalfEven (q : ℚ) : ℤ :=
  let f := ⌊q⌋
  if q - f < 1 / 2 then f
  else if q - f > 1 / 2 then f + 1
  else if f % 2 = 0 then f else f + 1

/-- Rounding of a percentile to two decimal places, as the Python code does
by formatting to two decimals and parsing the result back. -/
def round2 (p : ℚ) : ℚ :=
  (roundHalfEven (100 * p) : ℚ) / 100

/-- The percentile-argument normalization shared by the describe methods:
`None` becomes the quartiles; a list (the empty list included, via the
falsiness check) is kept as given.  Scalar arguments are out of scope. -/
def normalizePercentiles : Option (List ℚ) → List ℚ
  | none => [1 / 4, 1 / 2, 3 / 4]
  | some l => l

/-- The label used in describe indexes: the integer part of `100 * p`
followed by a percent sign. -/
def pctLabel (p : ℚ) : String :=
  toString ⌊(100 : ℚ) * p⌋ ++ "%"

/-- The data rendered into the per-column describe SQL template: the column
name, the processed percentile list, and the `percentile_cont`/`percentile_desc`
suffix. -/
structure SubQuery where
  column : String
  percentiles : List ℚ
  suffix : String
deriving DecidableEq, Repr

/-- Python `str.lower()`, written over the character list so that it
evaluates by reduction. -/
def pyLower (s : String) : String :=
  String.mk (s.data.map Char.toLower)

/-- Error message for an invalid `type_` argument. -/
def typeArgMsg : String :=
  "The \x27type_\x27 parameter must be \x27continuous\x27 or \x27discrete\x27"

/-- Error message for out-of-range percentiles. -/
def percentileRangeMsg (ps : List ℚ) : String :=
  "The `percentiles` attribute must be None or consist of numbers between 0 and 1 (got "
    ++ toString ps ++ ")"

/-- Method `Column._get_describe_query` (`pg_utils/column/base.py`): validate the
`type_` argument, yield no subquery for a non-numeric column, validate the
percentile range, then keep the positive percentiles, round them to two
decimal places and sort them ascending for the SQL template. -/
def _get_describe_query (col : Column) (percentiles : Option (List ℚ))
    (type_ : String) : Except Err (Option SubQuery) :=
  if ¬ (pyLower type_ = "continuous" ∨ pyLower type_ = "discrete") then
    Except.error (Err.valueError typeArgMsg)
  else if col.is_numeric = false then
    Except.ok none
  else
    let ps := normalizePercentiles percentiles
    if ps.any (fun x => decide (x < 0 ∨ x > 1)) then
      Except.error (Err.valueError (percentileRangeMsg ps))
    else
      let sorted_ps := List.insertionSort (· ≤ ·) ((ps.filter (fun p => decide (0 < p))).map round2)
      let suffix := if pyLower type_ = "continuous" then "cont" else "desc"
      Except.ok (some ⟨col.name, sorted_ps, suffix⟩)

/-- The fixed describe index: `["count","mean","std_dev","minimum"]`, one
label per percentile, then `["maximum"]`. -/
def describeIndex (ps : List ℚ) : List String :=
  ["count", "mean", "std_dev", "minimum"] ++ ps.map pctLabel ++ ["maximum"]

/-- The observable outcome of a successful describe call: the subqueries
unioned into the executed SQL, and the index of the returned frame. -/
structure DescribeRun where
  subqueries : List SubQuery
  index : List String
deriving DecidableEq, Repr

/-- Method `Table.describe` (`pg_utils/table/table.py`): default the column list to
the numeric columns and the percentiles to quartiles, build one subquery per
column through `_get_describe_query` (a column name outside the selected
columns makes the list lookup in `_get_column_by_name` raise, and a vacuous union
makes the database reject the query), and label the rows of the fetched
result with the fixed index. -/
def TableModel.describe (t : TableModel) (columns : Option (List String))
    (percentiles : Option (List ℚ)) (type_ : String) : Except Err DescribeRun :=
  let cols := columns.getD t.numeric_columns
  let ps := normalizePercentiles percentiles
  if cols.any (fun c => !(t.column_names.contains c)) then
    Except.error (Err.valueError "x not in list")
  else
    match cols.mapM (fun c => _get_describe_query (t.columnOf c) (some ps) type_) with
    | Except.error e => Except.error e
    | Except.ok qs =>
        let subs := qs.filterMap id
        if subs.isEmpty then
          Except.error (Err.dbError "syntax error in the union of zero subqueries")
        else
          Except.ok ⟨subs, describeIndex ps⟩

/-- Method `Column.describe` (`pg_utils/column/base.py`): default the percentiles to
quartiles, build the query (executing the `None` query produced for a
non-numeric column fails in the driver), and label the fetched row with the
fixed index. -/
def Column.describe (col : Column) (percentiles : Option (List ℚ))
    (type_ : String) : Except Err DescribeRun :=
  let ps := percentiles.getD [1 / 4, 1 / 2, 3 / 4]
  match _get_describe_query col (some ps) type_ with
  | Except.error e => Except.error e
  | Except.ok none => Except.error (Err.typeError "query may not be None")
  | Except.ok (some sq) => Except.ok ⟨[sq], describeIndex ps⟩

/-- The Python `bins` argument of the bin-counts operation: `None`, an
integer, or a numeric value that is not an integer (such as `2.5`). -/
inductive BinsArg where
  | none
  | int (n : ℤ)
  | nonInt (x : ℚ)
deriving DecidableEq, Repr

/-- The validation predicate of `counts`
(`bins is not None and (not isinstance(bins, six.integer_types) or bins <= 0)`). -/
def binsInvalid : BinsArg → Bool
  | BinsArg.none => false
  | BinsArg.int n => decide (n ≤ 0)
  | BinsArg.nonInt _ => true

/-- The data rendered into the `bin_counts.j2` SQL template. -/
structure BinQuery where
  bin_width : ℝ
  bins : ℤ
  table_name : String
  column : String
  minimum : ℝ
  maximum : ℝ

/-- A SQL statement executed against the connection, tagged by kind. -/
inductive SQLEvent where
  | catalogTableExists (schema table_name : String)
  | catalogColumnMeta (schema table_name : String)
  | describeQuery (column : String)
  | binCountsQuery (q : BinQuery)
  | execStmt (sql : String)

/-- Catalog (information-schema) queries, as opposed to data queries. -/
def SQLEvent.isCatalog : SQLEvent → Bool
  | SQLEvent.catalogTableExists _ _ => true
  | SQLEvent.catalogColumnMeta _ _ => true
  | _ => false

/-- Error message of the `bins` validation in `pg_utils/bin_counts/base.py`. -/
def binsArgMsg : String :=
  "\x27bin_counts\x27 must be a positive integer or None!"

/-- Error message for a non-numeric column in `counts`. -/
def notNumericMsg (column : String) (t : TableModel) : String :=
  "The column " ++ column ++ " is not a numeric column of " ++ t.name

/-- The bin count used when the caller supplied none: the Freedman-Diaconis
count capped at 50.  An explicit integer is used as-is; a non-integer never
reaches this point (validation rejects it with the same error). -/
noncomputable def resolveBins (desc : Desc) : BinsArg → Except Err ℤ
  | BinsArg.none => (num_bins desc).map (fun fd => min fd 50)
  | BinsArg.int n => Except.ok n
  | BinsArg.nonInt _ => Except.error (Err.valueError binsArgMsg)

/-- Function `counts` (`pg_utils/bin_counts/base.py`): validate the `bins` argument,
validate that the column is numeric, describe the column (the first SQL),
resolve the bin count, and render and execute the bin-counts query.  The
describe result is the `descOf` oracle.  Returns the executed statements
together with the outcome. -/
noncomputable def counts (t : TableModel) (descOf : String → Desc)
    (column : String) (bins : BinsArg) : List SQLEvent × Except Err BinQuery :=
  if binsInvalid bins then
    ([], Except.error (Err.valueError binsArgMsg))
  else if !(t.numeric_columns.contains column) then
    ([], Except.error (Err.valueError (notNumericMsg column t)))
  else
    let desc := descOf column
    match resolveBins desc bins with
    | Except.error e => ([SQLEvent.describeQuery column], Except.error e)
    | Except.ok b =>
        let q : BinQuery :=
          ⟨(desc.maximum - desc.minimum) / (b : ℝ), b, t.name, column,
           desc.minimum, desc.maximum⟩
        ([SQLEvent.describeQuery column, SQLEvent.binCountsQuery q], Except.ok q)

/-- The bin count a `counts` call actually put into the rendered query. -/
noncomputable def usedBins (r : List SQLEvent × Except Err BinQuery) : Option ℤ :=
  match r.2 with
  | Except.ok q => some q.bins
  | Except.error _ => none

/-- A Python argument that is either one string or a list of strings. -/
inductive PyStrOrList where
  | str (s : String)
  | list (l : List String)
deriving DecidableEq, Repr

/-- A Python argument that is either one boolean or a list of booleans. -/
inductive PyBoolOrList where
  | bool (b : Bool)
  | list (l : List Bool)
deriving DecidableEq, Repr

/-- Error message for unknown sort columns (the Python message interpolates
an unordered set difference; the model keeps the original order). -/
def sortColumnsMsg (t : TableModel) (missing : List String) : String :=
  "Column names \x27" ++ String.intercalate "," missing ++ "\x27 not in table " ++ t.name

/-- Error message for a `sort_values` length mismatch. -/
def sortMismatchMsg (by_ : List String) (ascending : List Bool) : String :=
  "Mismatch between columns to sort by (" ++ toString by_
    ++ "), and ascending list (" ++ toString ascending ++ ")"

/-- The `ORDER BY` item list of `sort_values`: each column, suffixed with
`" desc"` exactly when its ascending flag is false. -/
def orderByClause (by_ : List String) (ascending : List Bool) : String :=
  String.intercalate ", "
    (List.zipWith (fun c a => c ++ (if a then "" else " desc")) by_ ascending)

/-- Method `Table.sort_values` (`pg_utils/table/table.py`): wrap a single column
name, reject unknown columns, broadcast a single boolean over the columns,
reject a length mismatch, and append the `ORDER BY` clause to the
select-all query.  Returns the SQL handed to `pandas.read_sql`. -/
def TableModel.sort_values (t : TableModel) (by_ : PyStrOrList)
    (ascending : PyBoolOrList) : Except Err String :=
  let sql := t.select_all_query
  let byL := match by_ with
    | PyStrOrList.str s => [s]
    | PyStrOrList.list l => l
  if byL.any (fun c => !(t.column_names.contains c)) then
    Except.error (Err.valueError
      (sortColumnsMsg t (byL.filter (fun c => !(t.column_names.contains c)))))
  else
    let asc := match ascending with
      | PyBoolOrList.bool b => List.replicate byL.length b
      | PyBoolOrList.list l => l
    if byL.length ≠ asc.length then
      Except.error (Err.valueError (sortMismatchMsg byL asc))
    else
      Except.ok (sql ++ " order by " ++ orderByClause byL asc)

/-- The `row` argument of `Table.insert`: a plain list of values, or a
pandas Series given by its index (the values play no role in the control
flow and are represented by strings). -/
inductive Row where
  | list (vals : List String)
  | series (index : List String) (vals : List String)
deriving DecidableEq, Repr

/-- Python `len(row)`: the length of a list, the index length of a Series. -/
def Row.len : Row → ℕ
  | Row.list vals => vals.length
  | Row.series index _ => index.length

/-- Step one of `Table.insert`: default the column list, or reject names
outside the selected columns of the table. -/
def resolvedInsertColumns (t : TableModel) (columns : Option (List String)) :
    Except Err (List String) :=
  match columns with
  | none => Except.ok t.column_names
  | some cols =>
      if cols.any (fun c => !(t.column_names.contains c)) then
        Except.error (Err.valueError
          ("The following columns are not in table " ++ t.name ++ ": "
            ++ String.intercalate "," (cols.filter (fun c => !(t.column_names.contains c)))))
      else
        Except.ok cols

/-- Step two of `Table.insert`: a Series row restricts the column list to
its index. -/
def selectedColumns (cols : List String) : Row → List String
  | Row.list _ => cols
  | Row.series index _ => cols.filter (fun c => index.contains c)

/-- The parameterized single-row INSERT statement of `Table.insert`. -/
def insertSQL (t : TableModel) (cols : List String) : String :=
  "insert into " ++ t.name ++ " (" ++ String.intercalate ", " cols
    ++ ") values (" ++ String.intercalate ", " (List.replicate cols.length "%s") ++ ");"

/-- Error message for a row/column length mismatch in `Table.insert`. -/
def insertLengthMsg (rowLen colLen : ℕ) : String :=
  "Length of row to be inserted is not the same as the number of columns selected ("
    ++ toString rowLen ++ " vs " ++ toString colLen ++ ")"

/-- Method `Table.insert` (`pg_utils/table/table.py`): validate the column list,
reconcile the index of a Series row against it, validate the length, execute one
parameterized INSERT, and return `bool(cur.rowcount)`.  The number of rows
the database reports as affected is the `rowcount` oracle. -/
def TableModel.insert (t : TableModel) (row : Row) (columns : Option (List String))
    (rowcount : ℕ) : List SQLEvent × Except Err Bool :=
  match resolvedInsertColumns t columns with
  | Except.error e => ([], Except.error e)
  | Except.ok cols =>
      match row with
      | Row.series index _ =>
          if index.any (fun c => !(cols.contains c)) then
            ([], Except.error (Err.valueError
              ("The following index elements are not specified columns: "
                ++ String.intercalate "," (index.filter (fun c => !(cols.contains c))))))
          else
            let cols2 := selectedColumns cols row
            if cols2.length ≠ row.len then
              ([], Except.error (Err.valueError (insertLengthMsg row.len cols2.length)))
            else
              ([SQLEvent.execStmt (insertSQL t cols2)], Except.ok (decide (rowcount ≠ 0)))
      | Row.list _ =>
          let cols2 := selectedColumns cols row
          if cols2.length ≠ row.len then
            ([], Except.error (Err.valueError (insertLengthMsg row.len cols2.length)))
          else
            ([SQLEvent.execStmt (insertSQL t cols2)], Except.ok (decide (rowcount ≠ 0)))

/-- The database catalog as seen through the information schema: whether a
table exists, and its ordered column metadata `(column_name, data_type)`. -/
structure Catalog where
  tableExists : String → String → Bool
  columnMeta : String → String → List (String × String)

/-- Look the datatype of a column up in the fetched metadata. -/
def metaTypes (meta : List (String × String)) (c : String) : String :=
  (((meta.filter (fun r => r.1 = c)).headI : String × String)).2

/-- Constructor `Table.__init__` (`pg_utils/table/table.py`): `_validate` checks table
existence against the catalog when enabled, then `_process_columns` fetches
the column metadata, defaults or normalizes the selected columns, and rejects
selections outside the catalog columns with `NoSuchColumnError`.  Returns the
executed statements together with the outcome. -/
def construct (cat : Catalog) (schema table_name : String)
    (columns : Option PyStrOrList) (check_existence : Bool) :
    List SQLEvent × Except Err TableModel :=
  let existsTrace := if check_existence then
    [SQLEvent.catalogTableExists schema table_name] else []
  if check_existence && !(cat.tableExists schema table_name) then
    (existsTrace, Except.error (Err.tableDoesNotExistError
      ("Table " ++ schema ++ "." ++ table_name ++ " does not exist")))
  else
    let meta := cat.columnMeta schema table_name
    let all_column_names := meta.map Prod.fst
    let column_names := match columns with
      | none => all_column_names
      | some (PyStrOrList.str s) => [s]
      | some (PyStrOrList.list l) => l
    let trace := existsTrace ++ [SQLEvent.catalogColumnMeta schema table_name]
    if column_names.any (fun c => !(all_column_names.contains c)) then
      (trace, Except.error (Err.noSuchColumnError
        (String.intercalate ", " (column_names.filter (fun c => !(all_column_names.contains c))))))
    else
      (trace, Except.ok ⟨schema, table_name, column_names, all_column_names, metaTypes meta⟩)

/-- What `Table.__getitem__` hands back: an attribute-bound `Column`, or a
fresh sub-`Table`. -/
inductive GetItemResult where
  | column (name : String)
  | table (t : TableModel)

/-- Method `Table.__getitem__` (`pg_utils/table/table.py`): one string yields the
column attribute when it is among the selected columns and raises `KeyError`
otherwise; a list builds a fresh table through `Table.from_table` with the
existence check disabled. -/
def getitem (cat : Catalog) (t : TableModel) (arg : PyStrOrList) :
    List SQLEvent × Except Err GetItemResult :=
  match arg with
  | PyStrOrList.str s =>
      if t.column_names.contains s then
        ([], Except.ok (GetItemResult.column s))
      else
        ([], Except.error (Err.keyError
          ("Column \x27" ++ s ++ "\x27 not found in table \x27" ++ t.name ++ "\x27")))
  | PyStrOrList.list l =>
      let r := construct cat t.schema t.table_name (some (PyStrOrList.list l)) false
      (r.1, r.2.map GetItemResult.table)

/-- Whether an outcome is a raised `NoSuchColumnError`. -/
def raisesNoSuchColumn {α : Type} : Except Err α → Bool
  | Except.error (Err.noSuchColumnError _) => true
  | _ => false

/-- Python truthiness of an optional string: `None` and `""` are falsy. -/
def pyTruthy : Option String → Bool
  | none => false
  | some s => !(s = "")

/-- The Python `or` of two optional strings. -/
def pyOr (a b : Option String) : Option String :=
  if pyTruthy a then a else b

/-- Python `str(value)` of an optional string, as interpolated into the
credential error message. -/
def pyFormat : Option String → String
  | none => "None"
  | some s => s

/-- The four resolved credential fields of a constructed `Connection`. -/
structure ConnRec where
  username : String
  password : String
  hostname : String
  database : String
deriving DecidableEq, Repr

/-- Constructor `Connection.__init__` (`pg_utils/connection/base.py`): each credential is
the explicit argument when truthy, else the designated environment variable
(the `env` oracle); when any resolved field is falsy, fail with the
credential `ValueError` before `psycopg2.connect` runs; otherwise the handle
is opened on the resolved credentials. -/
def Connection.mk (username password hostname database : Option String)
    (env : String → Option String)
    (env_username env_password env_hostname env_database : String) :
    Except Err ConnRec :=
  let u := pyOr username (env env_username)
  let p := pyOr password (env env_password)
  let h := pyOr hostname (env env_hostname)
  let d := pyOr database (env env_database)
  if !(pyTruthy u) || !(pyTruthy p) || !(pyTruthy h) || !(pyTruthy d) then
    Except.error (Err.valueError
      ("Unable to retrieve username, password, host, and database ("
        ++ pyFormat u ++ "," ++ pyFormat p ++ "," ++ pyFormat h ++ ","
        ++ pyFormat d ++ ")"))
  else
    Except.ok ⟨u.getD "", p.getD "", h.getD "", d.getD ""⟩

/-- The `num_rows` argument of `Column.head`: an integer or a string. -/
inductive NumRows where
  | int (n : ℤ)
  | str (s : String)
deriving DecidableEq, Repr

/-- Python `num_rows != "all"`: an integer never equals a string. -/
def numRowsNeAll : NumRows → Bool
  | NumRows.int _ => true
  | NumRows.str s => !(s = "all")

/-- Python interpolation of `num_rows` into the LIMIT clause. -/
def numRowsStr : NumRows → String
  | NumRows.int n => toString n
  | NumRows.str s => s

/-- Error message of the `Column.head` validation. -/
def headArgMsg : String :=
  "num_rows must be a positive integer or the string \x27all\x27"

/-- Method `Column.head` (`pg_utils/column/base.py`): raise unless the validation
condition `(isinstance(num_rows, int) and num_rows < 0) or num_rows != "all"`
is false, then execute the select-all query, with a LIMIT clause when
`num_rows` is not `"all"`.  Returns the executed query. -/
def Column.head (col : Column) (num_rows : NumRows) : Except Err String :=
  if ((match num_rows with
       | NumRows.int n => decide (n < 0)
       | NumRows.str _ => false) || numRowsNeAll num_rows) then
    Except.error (Err.valueError headArgMsg)
  else
    let query := col.select_all_query
    Except.ok (if numRowsNeAll num_rows then query ++ " limit " ++ numRowsStr num_rows else query)

/-- Whether a row passes the Series-index reconciliation of `Table.insert`
against a resolved column list (a plain list row always does). -/
def rowIndexOk (row : Row) (cols : List String) : Bool :=
  match row with
  | Row.list _ => true
  | Row.series index _ => index.all (fun c => cols.contains c)

/-! ## Shared concrete instances used by witnesses -/

/-- A concrete catalog holding one table `public.users(a integer, b text)`. -/
def demoCatalog : Catalog :=
  ⟨fun s n => s = "public" && n = "users",
   fun s n => if s = "public" && n = "users" then [("a", "integer"), ("b", "text")] else []⟩

/-- The table model obtained over `public.users`. -/
def demoTable : TableModel :=
  ⟨"public", "users", ["a", "b"], ["a", "b"],
   metaTypes [("a", "integer"), ("b", "text")]⟩

/-- A concrete numeric column of `public.users`. -/
def demoColumn : Column := ⟨"a", "public.users", true⟩

/-- A concrete non-numeric column of `public.users`. -/
def demoTextColumn : Column := ⟨"b", "public.users", false⟩

/-- A concrete describe oracle: one row, `p25 = 0`, `p75 = 1`, range
`[0, 300]`. -/
noncomputable def demoDescOf : String → Desc := fun _ => ⟨1, 0, 1, 0, 300⟩

/-! ## Claim theorems -/

/-- Claim C10: `Column.head` raises `ValueError` for every integer argument
(the validation condition holds for all integers because an integer never
equals the string `"all"`), and the exact string `"all"` is the only argument
on which it proceeds to query. -/
theorem head_rejects_all_integers (col : Column) :
    (∀ n : ℤ, col.head (NumRows.int n) = Except.error (Err.valueError headArgMsg))
    ∧ col.head (NumRows.str "all") = Except.ok col.select_all_query
    ∧ (∀ s : String, s ≠ "all" →
        col.head (NumRows.str s) = Except.error (Err.valueError headArgMsg)) := by
  refine ⟨fun n => ?_, ?_, fun s hs => ?_⟩ <;>
    simp [Column.head, numRowsNeAll, *]

/-- Witness for C10 at concrete arguments, the documented default `10`
included. -/
theorem head_rejects_all_integers_witness :
    demoColumn.head (NumRows.int 10) = Except.error (Err.valueError headArgMsg)
    ∧ demoColumn.head (NumRows.str "all") = Except.ok demoColumn.select_all_query
    ∧ demoColumn.head (NumRows.str "some") = Except.error (Err.valueError headArgMsg) :=
  ⟨(head_rejects_all_integers demoColumn).1 10,
   (head_rejects_all_integers demoColumn).2.1,
   (head_rejects_all_integers demoColumn).2.2 "some" (by decide)⟩

/-- Truthiness of `pyOr`: truthy exactly when one of its arguments is. -/
theorem pyTruthy_pyOr (a b : Option String) :
    pyTruthy (pyOr a b) = (pyTruthy a || pyTruthy b) := by
  unfold pyOr
  by_cases h : pyTruthy a <;> simp [h]

/-- A truthy optional string is some nonempty string. -/
theorem pyTruthy_getD {o : Option String} (h : pyTruthy o = true) :
    o.getD "" ≠ "" := by
  cases o with
  | none => simp [pyTruthy] at h
  | some s => simpa [pyTruthy] using h

/-- Boolean shape of the credential check: some disjunct of the `or`-ed
negations is set exactly when some credential pair is doubly falsy. -/
theorem credAbsent_iff (x1 y1 x2 y2 x3 y3 x4 y4 : Bool) :
    ((!(x1 || y1) || !(x2 || y2) || !(x3 || y3) || !(x4 || y4)) = true) ↔
      ((x1 = false ∧ y1 = false) ∨ (x2 = false ∧ y2 = false)
        ∨ (x3 = false ∧ y3 = false) ∨ (x4 = false ∧ y4 = false)) := by
  cases x1 <;> cases y1 <;> cases x2 <;> cases y2 <;>
    cases x3 <;> cases y3 <;> cases x4 <;> cases y4 <;> simp

/-- Claim C9: `Connection` construction fails with the credential error
exactly when some one of the four credentials is absent (falsy) both as an
explicit argument and in its designated environment variable; on success all
four resolved fields are non-empty.  Failure returns before
`psycopg2.connect`, so no handle is opened. -/
theorem connection_credentials_spec
    (username password hostname database : Option String)
    (env : String → Option String)
    (env_username env_password env_hostname env_database : String) :
    ((∃ e, Connection.mk username password hostname database env
        env_username env_password env_hostname env_database = Except.error e) ↔
      ((pyTruthy username = false ∧ pyTruthy (env env_username) = false)
        ∨ (pyTruthy password = false ∧ pyTruthy (env env_password) = false)
        ∨ (pyTruthy hostname = false ∧ pyTruthy (env env_hostname) = false)
        ∨ (pyTruthy database = false ∧ pyTruthy (env env_database) = false)))
    ∧ (∀ c, Connection.mk username password hostname database env
        env_username env_password env_hostname env_database = Except.ok c →
        c.username ≠ "" ∧ c.password ≠ "" ∧ c.hostname ≠ "" ∧ c.database ≠ "") := by
  constructor
  · have herr : (∃ e, Connection.mk username password hostname database env
        env_username env_password env_hostname env_database = Except.error e) ↔
        ((!pyTruthy (pyOr username (env env_username))
          || !pyTruthy (pyOr password (env env_password))
          || !pyTruthy (pyOr hostname (env env_hostname))
          || !pyTruthy (pyOr database (env env_database))) = true) := by
      dsimp only [Connection.mk]
      split
      · rename_i h
        exact iff_of_true ⟨_, rfl⟩ h
      · rename_i h
        refine iff_of_false ?_ h
        rintro ⟨e, he⟩
        cases he
    rw [herr, pyTruthy_pyOr, pyTruthy_pyOr, pyTruthy_pyOr, pyTruthy_pyOr]
    exact credAbsent_iff _ _ _ _ _ _ _ _
  · intro c hc
    dsimp only [Connection.mk] at hc
    split at hc
    · cases hc
    · rename_i h
      cases hc
      simp only [Bool.not_eq_true, Bool.or_eq_false_iff] at h
      obtain ⟨⟨⟨h1, h2⟩, h3⟩, h4⟩ := h
      refine ⟨pyTruthy_getD ?_, pyTruthy_getD ?_, pyTruthy_getD ?_, pyTruthy_getD ?_⟩ <;>
        simp_all

/-- Witness for C9: all-absent credentials fail; all-explicit ones yield
non-empty fields. -/
theorem connection_credentials_spec_witness :
    (∃ e, Connection.mk none none none none (fun _ => none)
        "pg_username" "pg_password" "pg_hostname" "pg_database" = Except.error e)
    ∧ (("u" : String) ≠ "" ∧ ("p" : String) ≠ "" ∧ ("h" : String) ≠ "" ∧ ("d" : String) ≠ "") :=
  ⟨(connection_credentials_spec none none none none (fun _ => none)
      "pg_username" "pg_password" "pg_hostname" "pg_database").1.mpr
      (Or.inl ⟨rfl, rfl⟩),
   (connection_credentials_spec (some "u") (some "p") (some "h") (some "d")
      (fun _ => none) "pg_username" "pg_password" "pg_hostname" "pg_database").2
      ⟨"u", "p", "h", "d"⟩ rfl⟩

/-- Claim C6: `sort_values` broadcasts a single boolean over the `by`
columns, rejects an ascending list whose length differs from that of `by`, and
otherwise appends an `ORDER BY` clause listing the `by` columns in order,
each suffixed with `" desc"` exactly when its flag is false. -/
theorem sort_values_spec (t : TableModel) (by_ : List String) (b : Bool) (l : List Bool) :
    (t.sort_values (PyStrOrList.list by_) (PyBoolOrList.bool b)
      = t.sort_values (PyStrOrList.list by_) (PyBoolOrList.list (List.replicate by_.length b)))
    ∧ (by_.all (fun c => t.column_names.contains c) = true → by_.length ≠ l.length →
        t.sort_values (PyStrOrList.list by_) (PyBoolOrList.list l)
          = Except.error (Err.valueError (sortMismatchMsg by_ l)))
    ∧ (by_.all (fun c => t.column_names.contains c) = true → by_.length = l.length →
        t.sort_values (PyStrOrList.list by_) (PyBoolOrList.list l)
          = Except.ok (t.select_all_query ++ " order by " ++ orderByClause by_ l)) := by
  have hany : by_.all (fun c => t.column_names.contains c) = true →
      ¬ ((by_.any fun c => !(t.column_names.contains c)) = true) := by
    intro h hcontra
    rw [List.any_eq_true] at hcontra
    obtain ⟨c, hc, hnc⟩ := hcontra
    rw [List.all_eq_true] at h
    rw [h c hc] at hnc
    cases hnc
  refine ⟨rfl, fun hall hne => ?_, fun hall heq => ?_⟩
  · dsimp only [TableModel.sort_values]
    rw [if_neg (hany hall), if_pos hne]
  · dsimp only [TableModel.sort_values]
    rw [if_neg (hany hall), if_neg (not_ne_iff.mpr heq)]

/-- Witness for C6: a two-column sort over `public.users`. -/
theorem sort_values_spec_witness :
    (demoTable.sort_values (PyStrOrList.list ["a", "b"]) (PyBoolOrList.bool false)
      = demoTable.sort_values (PyStrOrList.list ["a", "b"]) (PyBoolOrList.list [false, false]))
    ∧ demoTable.sort_values (PyStrOrList.list ["a", "b"]) (PyBoolOrList.list [true])
      = Except.error (Err.valueError (sortMismatchMsg ["a", "b"] [true]))
    ∧ demoTable.sort_values (PyStrOrList.list ["a", "b"]) (PyBoolOrList.list [true, false])
      = Except.ok (demoTable.select_all_query ++ " order by "
          ++ orderByClause ["a", "b"] [true, false]) :=
  ⟨(sort_values_spec demoTable ["a", "b"] false [false, false]).1,
   (sort_values_spec demoTable ["a", "b"] false [true]).2.1 (by decide) (by decide),
   (sort_values_spec demoTable ["a", "b"] false [true, false]).2.2 (by decide) (by decide)⟩

/-- If every element satisfies `p`, no element satisfies `!p`. -/
theorem any_not_of_all {α : Type} (l : List α) (p : α → Bool)
    (h : l.all p = true) : ¬ ((l.any fun c => !(p c)) = true) := by
  intro hcontra
  rw [List.any_eq_true] at hcontra
  obtain ⟨c, hc, hnc⟩ := hcontra
  rw [List.all_eq_true] at h
  rw [h c hc] at hnc
  cases hnc

/-- Claim C7: `Table.insert` raises `ValueError` when the row length differs
from the number of selected columns (the column list restricted to a Series
row index), and otherwise issues exactly one parameterized INSERT and
returns `bool(cur.rowcount)`, which is `True` iff exactly one row was
affected whenever the single-row statement reports at most one. -/
theorem insert_spec (t : TableModel) (row : Row) (columns : Option (List String))
    (rowcount : ℕ) (cols : List String)
    (hres : resolvedInsertColumns t columns = Except.ok cols)
    (hidx : rowIndexOk row cols = true) :
    ((selectedColumns cols row).length ≠ row.len →
        t.insert row columns rowcount
          = ([], Except.error (Err.valueError
              (insertLengthMsg row.len (selectedColumns cols row).length))))
    ∧ ((selectedColumns cols row).length = row.len →
        t.insert row columns rowcount
          = ([SQLEvent.execStmt (insertSQL t (selectedColumns cols row))],
             Except.ok (decide (rowcount ≠ 0)))
        ∧ (rowcount ≤ 1 →
            ((t.insert row columns rowcount).2 = Except.ok true ↔ rowcount = 1))) := by
  have hmain : t.insert row columns rowcount =
      (if (selectedColumns cols row).length ≠ row.len then
        ([], Except.error (Err.valueError
          (insertLengthMsg row.len (selectedColumns cols row).length)))
      else
        ([SQLEvent.execStmt (insertSQL t (selectedColumns cols row))],
         Except.ok (decide (rowcount ≠ 0)))) := by
    cases row with
    | list vals =>
        simp only [TableModel.insert, hres, selectedColumns]
    | series index vals =>
        simp only [TableModel.insert, hres, selectedColumns]
        rw [if_neg (any_not_of_all index (fun c => cols.contains c) hidx)]
  constructor
  · intro hne
    rw [hmain, if_pos hne]
  · intro heq
    have hok : t.insert row columns rowcount =
        ([SQLEvent.execStmt (insertSQL t (selectedColumns cols row))],
         Except.ok (decide (rowcount ≠ 0))) := by
      rw [hmain, if_neg (not_ne_iff.mpr heq)]
    refine ⟨hok, fun hle => ?_⟩
    rw [hok]
    simp only [Except.ok.injEq]
    constructor
    · intro hd
      have : rowcount ≠ 0 := of_decide_eq_true hd
      omega
    · intro h1
      subst h1
      rfl

/-- Witness for C7: inserting a two-value row into `public.users` with both
columns selected succeeds with one INSERT; a one-value row fails the length
validation. -/
theorem insert_spec_witness :
    demoTable.insert (Row.list ["1", "x"]) (some ["a", "b"]) 1
      = ([SQLEvent.execStmt (insertSQL demoTable (selectedColumns ["a", "b"] (Row.list ["1", "x"])))],
         Except.ok (decide ((1 : ℕ) ≠ 0)))
    ∧ ((demoTable.insert (Row.list ["1", "x"]) (some ["a", "b"]) 1).2 = Except.ok true ↔ (1 : ℕ) = 1)
    ∧ demoTable.insert (Row.list ["1"]) (some ["a", "b"]) 1
      = ([], Except.error (Err.valueError
          (insertLengthMsg (Row.list ["1"]).len (selectedColumns ["a", "b"] (Row.list ["1"])).length))) := by
  have h2 := (insert_spec demoTable (Row.list ["1", "x"]) (some ["a", "b"]) 1 ["a", "b"]
      (by rfl) (by rfl)).2 (by rfl)
  have h1 := (insert_spec demoTable (Row.list ["1"]) (some ["a", "b"]) 1 ["a", "b"]
      (by rfl) (by rfl)).1 (by decide)
  exact ⟨h2.1, h2.2 (by omega), h1⟩

/-- Counterexample to claim C8 as stated: selecting a single missing column
name through `__getitem__` raises `KeyError`, not `NoSuchColumnError`. -/
theorem getitem_string_keyError_cex :
    (getitem demoCatalog demoTable (PyStrOrList.str "zz")).2
      = Except.error (Err.keyError "Column \x27zz\x27 not found in table \x27public.users\x27")
    ∧ raisesNoSuchColumn (getitem demoCatalog demoTable (PyStrOrList.str "zz")).2 = false
    ∧ demoTable.all_column_names.contains "zz" = false :=
  ⟨rfl, rfl, rfl⟩

/-- Claim C8 (amended): constructing over an absent table with the existence
check enabled raises `TableDoesNotExistError`; a construction-time selection
outside the catalog columns raises `NoSuchColumnError`, as does a
`__getitem__` selection by list, while a `__getitem__` selection by a single
missing string raises `KeyError`; construction issues only catalog queries
(so the checks precede any data query); and a successfully constructed table
satisfies `column_names ⊆ all_column_names`. -/
theorem table_validation_spec (cat : Catalog) (schema table_name : String)
    (columns : Option PyStrOrList) (ce : Bool) (t : TableModel)
    (s : String) (l : List String) :
    (ce = true → cat.tableExists schema table_name = false →
        construct cat schema table_name columns ce
          = ([SQLEvent.catalogTableExists schema table_name],
             Except.error (Err.tableDoesNotExistError
               ("Table " ++ schema ++ "." ++ table_name ++ " does not exist"))))
    ∧ ((construct cat schema table_name columns ce).1.all SQLEvent.isCatalog = true)
    ∧ (∀ t', (construct cat schema table_name columns ce).2 = Except.ok t' →
        ∀ c ∈ t'.column_names, c ∈ t'.all_column_names)
    ∧ ((l.any fun c => !(((cat.columnMeta t.schema t.table_name).map Prod.fst).contains c)) = true →
        raisesNoSuchColumn (getitem cat t (PyStrOrList.list l)).2 = true
        ∧ (getitem cat t (PyStrOrList.list l)).1.all SQLEvent.isCatalog = true)
    ∧ (t.column_names.contains s = false →
        getitem cat t (PyStrOrList.str s)
          = ([], Except.error (Err.keyError
              ("Column \x27" ++ s ++ "\x27 not found in table \x27" ++ t.name ++ "\x27")))) := by
  refine ⟨fun hce hex => ?_, ?_, fun t' h c hc => ?_, fun hl => ?_, fun hs => ?_⟩
  · subst hce
    simp [construct, hex]
  · dsimp only [construct]
    split
    · cases ce <;> simp [SQLEvent.isCatalog]
    · split <;> (cases ce <;> simp [SQLEvent.isCatalog])
  · dsimp only [construct] at h
    split at h
    · cases h
    · split at h
      · cases h
      · rename_i hcond
        cases h
        by_contra hmem
        exact hcond (List.any_eq_true.mpr ⟨c, hc, by simp [hmem]⟩)
  · dsimp only [getitem, construct]
    rw [if_pos hl]
    exact ⟨rfl, rfl⟩
  · have hs' : s ∉ t.column_names := by simpa using hs
    simp [getitem, hs']

/-- Witness for C8 (amended) at the concrete catalog `public.users`. -/
theorem table_validation_spec_witness :
    construct demoCatalog "public" "nope" none true
      = ([SQLEvent.catalogTableExists "public" "nope"],
         Except.error (Err.tableDoesNotExistError "Table public.nope does not exist"))
    ∧ (construct demoCatalog "public" "users" none true).1.all SQLEvent.isCatalog = true
    ∧ ("a" : String) ∈ demoTable.all_column_names
    ∧ raisesNoSuchColumn (getitem demoCatalog demoTable (PyStrOrList.list ["a", "zz"])).2 = true
    ∧ getitem demoCatalog demoTable (PyStrOrList.str "zz")
        = ([], Except.error (Err.keyError
            ("Column \x27zz\x27 not found in table \x27" ++ demoTable.name ++ "\x27"))) := by
  refine ⟨?_, ?_, ?_, ?_, ?_⟩
  · exact (table_validation_spec demoCatalog "public" "nope" none true demoTable "zz" []).1
      rfl rfl
  · exact (table_validation_spec demoCatalog "public" "users" none true demoTable "zz" []).2.1
  · exact (table_validation_spec demoCatalog "public" "users" none true demoTable "zz" []).2.2.1
      demoTable rfl "a" (by decide)
  · exact ((table_validation_spec demoCatalog "public" "users" none true demoTable "zz"
      ["a", "zz"]).2.2.2.1 (by decide)).1
  · exact (table_validation_spec demoCatalog "public" "users" none true demoTable "zz"
      ["a", "zz"]).2.2.2.2 (by decide)

/-- Claim C4: the index of a describe result is always
`["count","mean","std_dev","minimum"]`, one `<p>%` label per requested
percentile, then `["maximum"]`, for any number of requested percentiles,
at the table level and at the column level. -/
theorem describe_index_spec (t : TableModel) (col : Column)
    (columns : Option (List String)) (ps : List ℚ) (type_ : String) :
    (∀ r, t.describe columns (some ps) type_ = Except.ok r →
        r.index = ["count", "mean", "std_dev", "minimum"] ++ ps.map pctLabel ++ ["maximum"])
    ∧ (∀ r, col.describe (some ps) type_ = Except.ok r →
        r.index = ["count", "mean", "std_dev", "minimum"] ++ ps.map pctLabel ++ ["maximum"]) := by
  constructor
  · intro r h
    dsimp only [TableModel.describe, normalizePercentiles] at h
    split at h
    · cases h
    · split at h
      · cases h
      · split at h
        · cases h
        · cases h
          rfl
  · intro r h
    dsimp only [Column.describe] at h
    split at h
    · cases h
    · cases h
    · cases h
      rfl

/-- Witness for C4: describing the numeric column `a` with percentiles
`[0.25, 0.6]` yields the seven-label index. -/
theorem describe_index_spec_witness :
    (DescribeRun.mk [⟨"a", [1 / 4, 3 / 5], "cont"⟩]
        ["count", "mean", "std_dev", "minimum", "25%", "60%", "maximum"]).index
      = ["count", "mean", "std_dev", "minimum"]
          ++ ([1 / 4, 3 / 5] : List ℚ).map pctLabel ++ ["maximum"]
    ∧ (DescribeRun.mk [⟨"a", [1 / 4, 3 / 5], "cont"⟩]
        ["count", "mean", "std_dev", "minimum", "25%", "60%", "maximum"]).index
      = ["count", "mean", "std_dev", "minimum"]
          ++ (List.map pctLabel [1 / 4, 3 / 5] ++ ["maximum"]) := by
  have hq : _get_describe_query (Column.mk "a" "public.users" true)
      (some [(1 : ℚ) / 4, 3 / 5]) "continuous"
      = Except.ok (some ⟨"a", [1 / 4, 3 / 5], "cont"⟩) := by
    have hlow : pyLower "continuous" = "continuous" := rfl
    norm_num [_get_describe_query, normalizePercentiles, hlow, List.any, List.filter,
      round2, roundHalfEven, List.insertionSort, List.orderedInsert]
  have h1 : pctLabel ((1 : ℚ) / 4) = "25%" := by
    show toString ⌊(100 : ℚ) * (1 / 4)⌋ ++ "%" = "25%"
    rw [show ⌊(100 : ℚ) * (1 / 4)⌋ = 25 by norm_num]
    rfl
  have h2 : pctLabel ((3 : ℚ) / 5) = "60%" := by
    show toString ⌊(100 : ℚ) * (3 / 5)⌋ ++ "%" = "60%"
    rw [show ⌊(100 : ℚ) * (3 / 5)⌋ = 60 by norm_num]
    rfl
  have hidx : describeIndex [(1 : ℚ) / 4, 3 / 5]
      = ["count", "mean", "std_dev", "minimum", "25%", "60%", "maximum"] := by
    simp only [describeIndex, List.map_cons, List.map_nil, h1, h2]
    rfl
  have htab : demoTable.describe (some ["a"]) (some [(1 : ℚ) / 4, 3 / 5]) "continuous"
      = Except.ok ⟨[⟨"a", [1 / 4, 3 / 5], "cont"⟩],
          ["count", "mean", "std_dev", "minimum", "25%", "60%", "maximum"]⟩ := by
    have hcol : demoTable.columnOf "a" = Column.mk "a" "public.users" true := rfl
    dsimp only [TableModel.describe, normalizePercentiles, Option.getD]
    rw [if_neg (by decide)]
    rw [show ((["a"].mapM fun c => _get_describe_query (demoTable.columnOf c)
        (some [(1 : ℚ) / 4, 3 / 5]) "continuous"))
        = Except.ok [some ⟨"a", [1 / 4, 3 / 5], "cont"⟩] by
      simp only [List.mapM_cons, List.mapM_nil, hcol, hq]
      rfl]
    dsimp only [List.filterMap, List.isEmpty]
    rw [hidx]
    rfl
  have hcoldesc : demoColumn.describe (some [(1 : ℚ) / 4, 3 / 5]) "continuous"
      = Except.ok ⟨[⟨"a", [1 / 4, 3 / 5], "cont"⟩],
          ["count", "mean", "std_dev", "minimum", "25%", "60%", "maximum"]⟩ := by
    dsimp only [Column.describe, Option.getD]
    rw [show _get_describe_query demoColumn (some [(1 : ℚ) / 4, 3 / 5]) "continuous"
        = Except.ok (some ⟨"a", [1 / 4, 3 / 5], "cont"⟩) from hq]
    rw [hidx]
  constructor
  · exact (describe_index_spec demoTable demoColumn (some ["a"]) [1 / 4, 3 / 5] "continuous").1
      ⟨[⟨"a", [1 / 4, 3 / 5], "cont"⟩],
       ["count", "mean", "std_dev", "minimum", "25%", "60%", "maximum"]⟩ htab
  · have h := (describe_index_spec demoTable demoColumn (some ["a"]) [1 / 4, 3 / 5]
      "continuous").2
      ⟨[⟨"a", [1 / 4, 3 / 5], "cont"⟩],
       ["count", "mean", "std_dev", "minimum", "25%", "60%", "maximum"]⟩ hcoldesc
    simpa using h

/-- Counterexample to claim C5 as stated: on a non-numeric column the
percentile validation never runs, so a percentile outside `[0,1]` raises
nothing — the method returns no subquery. -/
theorem describe_raises_cex :
    _get_describe_query demoTextColumn (some [2]) "continuous" = Except.ok none
    ∧ ((2 : ℚ) < 0 ∨ (2 : ℚ) > 1) := by
  exact ⟨rfl, by norm_num⟩

/-- Claim C5 (amended): `_get_describe_query` raises `ValueError` iff the
kind is invalid or the column is numeric and some requested percentile lies
outside `[0,1]`; every raised error is one of the two ValueErrors; a
non-numeric column with a valid kind yields no subquery; and the percentile
list of a produced subquery is the requested positives rounded to two
decimal places and sorted ascending. -/
theorem describe_validation_spec (col : Column) (percentiles : Option (List ℚ))
    (type_ : String) :
    ((∃ e, _get_describe_query col percentiles type_ = Except.error e) ↔
      (¬ (pyLower type_ = "continuous" ∨ pyLower type_ = "discrete")
        ∨ (col.is_numeric = true
            ∧ ∃ p ∈ normalizePercentiles percentiles, p < 0 ∨ p > 1)))
    ∧ (∀ e, _get_describe_query col percentiles type_ = Except.error e →
        (e = Err.valueError typeArgMsg
          ∨ e = Err.valueError (percentileRangeMsg (normalizePercentiles percentiles))))
    ∧ ((pyLower type_ = "continuous" ∨ pyLower type_ = "discrete") →
        col.is_numeric = false →
        _get_describe_query col percentiles type_ = Except.ok none)
    ∧ (∀ sq, _get_describe_query col percentiles type_ = Except.ok (some sq) →
        List.Sorted (· ≤ ·) sq.percentiles
        ∧ sq.percentiles.Perm
            (((normalizePercentiles percentiles).filter (fun p => decide (0 < p))).map round2)) := by
  refine ⟨?_, ?_, fun ht hn => ?_, fun sq h => ?_⟩
  · dsimp only [_get_describe_query]
    by_cases ht : pyLower type_ = "continuous" ∨ pyLower type_ = "discrete"
    · rw [if_neg (not_not_intro ht)]
      by_cases hn : col.is_numeric = false
      · rw [if_pos hn]
        constructor
        · rintro ⟨e, he⟩
          cases he
        · rintro (h | ⟨hnum, _⟩)
          · exact absurd ht h
          · rw [hn] at hnum
            cases hnum
      · rw [if_neg hn]
        by_cases ha : ((normalizePercentiles percentiles).any
            fun x => decide (x < 0 ∨ x > 1)) = true
        · rw [if_pos ha]
          refine iff_of_true ⟨_, rfl⟩ (Or.inr ⟨by simpa using hn, ?_⟩)
          obtain ⟨p, hp, hpv⟩ := List.any_eq_true.mp ha
          exact ⟨p, hp, of_decide_eq_true hpv⟩
        · rw [if_neg ha]
          refine iff_of_false ?_ ?_
          · rintro ⟨e, he⟩
            cases he
          · rintro (h | ⟨_, p, hp, hpv⟩)
            · exact absurd ht h
            · exact ha (List.any_eq_true.mpr ⟨p, hp, decide_eq_true hpv⟩)
    · rw [if_pos ht]
      exact iff_of_true ⟨_, rfl⟩ (Or.inl ht)
  · intro e he
    dsimp only [_get_describe_query] at he
    split at he
    · cases he
      exact Or.inl rfl
    · split at he
      · cases he
      · split at he
        · cases he
          exact Or.inr rfl
        · cases he
  · dsimp only [_get_describe_query]
    rw [if_neg (not_not_intro ht), if_pos hn]
  · dsimp only [_get_describe_query] at h
    split at h
    · cases h
    · split at h
      · cases h
      · split at h
        · cases h
        · cases h
          exact ⟨List.sorted_insertionSort (· ≤ ·) _, List.perm_insertionSort (· ≤ ·) _⟩

/-- Witness for C5 (amended) at concrete columns and percentile lists. -/
theorem describe_validation_spec_witness :
    (∃ e, _get_describe_query demoColumn (some [2]) "continuous" = Except.error e)
    ∧ (Err.valueError typeArgMsg = Err.valueError typeArgMsg
        ∨ Err.valueError typeArgMsg
            = Err.valueError (percentileRangeMsg (normalizePercentiles (some [(1 : ℚ) / 4]))))
    ∧ _get_describe_query demoTextColumn (some [(1 : ℚ) / 4]) "continuous" = Except.ok none
    ∧ (List.Sorted (· ≤ ·) ([1 / 4, 3 / 4] : List ℚ)
        ∧ ([1 / 4, 3 / 4] : List ℚ).Perm
            (((normalizePercentiles (some [(3 : ℚ) / 4, 1 / 4])).filter
                (fun p => decide (0 < p))).map round2)) := by
  refine ⟨?_, ?_, ?_, ?_⟩
  · exact (describe_validation_spec demoColumn (some [2]) "continuous").1.mpr
      (Or.inr ⟨rfl, 2, by simp [normalizePercentiles], by norm_num⟩)
  · exact (describe_validation_spec demoColumn (some [(1 : ℚ) / 4]) "bogus").2.1
      (Err.valueError typeArgMsg) rfl
  · exact (describe_validation_spec demoTextColumn (some [(1 : ℚ) / 4]) "continuous").2.2.1
      (Or.inl rfl) rfl
  · refine (describe_validation_spec demoColumn (some [(3 : ℚ) / 4, 1 / 4]) "continuous").2.2.2
      ⟨"a", [1 / 4, 3 / 4], "cont"⟩ ?_
    have hlow : pyLower "continuous" = "continuous" := rfl
    norm_num [_get_describe_query, normalizePercentiles, hlow, List.any, List.filter,
      round2, roundHalfEven, List.insertionSort, List.orderedInsert, demoColumn]

/-- Claim C1: `num_bins` fails with `ValueError` on a zero count; otherwise,
with `h = 2 * (p75 - p25) / count ** (1/3)`, it returns `ceil(sqrt(count))`
when `h = 0` and `ceil((maximum - minimum) / h)` when `h ≠ 0`. -/
theorem num_bins_spec (d : Desc) :
    (d.count = 0 → num_bins d = Except.error (Err.valueError fdCountZeroMsg))
    ∧ (d.count ≠ 0 →
        (2 * (d.p75 - d.p25) / d.count ^ ((1 : ℝ) / 3) = 0 →
            num_bins d = Except.ok ⌈Real.sqrt d.count⌉)
        ∧ (2 * (d.p75 - d.p25) / d.count ^ ((1 : ℝ) / 3) ≠ 0 →
            num_bins d = Except.ok
              ⌈(d.maximum - d.minimum) / (2 * (d.p75 - d.p25) / d.count ^ ((1 : ℝ) / 3))⌉)) := by
  refine ⟨fun h => ?_, fun h => ⟨fun h0 => ?_, fun h0 => ?_⟩⟩
  · dsimp only [num_bins]
    rw [if_pos h]
  · dsimp only [num_bins]
    rw [if_neg h, if_pos h0]
  · dsimp only [num_bins]
    rw [if_neg h, if_neg h0]

/-- Witness for C1 at the three kinds of concrete descriptions: empty,
degenerate (`p25 = p75`), and regular. -/
theorem num_bins_spec_witness :
    num_bins ⟨0, 0, 0, 0, 0⟩ = Except.error (Err.valueError fdCountZeroMsg)
    ∧ num_bins ⟨1, 2, 2, 5, 9⟩ = Except.ok 1
    ∧ num_bins ⟨1, 0, 1, 0, 300⟩ = Except.ok 150 := by
  refine ⟨(num_bins_spec ⟨0, 0, 0, 0, 0⟩).1 rfl, ?_, ?_⟩
  · have h := ((num_bins_spec ⟨1, 2, 2, 5, 9⟩).2 (one_ne_zero : (1 : ℝ) ≠ 0)).1
      (by simp)
    rw [h]
    simp [Real.sqrt_one]
  · have hrp : (1 : ℝ) ^ ((1 : ℝ) / 3) = 1 := Real.one_rpow _
    have h := ((num_bins_spec ⟨1, 0, 1, 0, 300⟩).2 (one_ne_zero : (1 : ℝ) ≠ 0)).2
      (by rw [show (2 : ℝ) * (1 - 0) / (1 : ℝ) ^ ((1 : ℝ) / 3) = 2 by rw [hrp]; norm_num]
          norm_num)
    rw [h]
    dsimp only
    rw [show ((300 : ℝ) - 0) / (2 * ((1 : ℝ) - 0) / (1 : ℝ) ^ ((1 : ℝ) / 3)) = 150 by
      rw [hrp]; norm_num]
    norm_num

/-- Evaluation of the Freedman-Diaconis count on the demo description:
`h = 2`, `ceil(300 / 2) = 150`. -/
theorem num_bins_eval300 : num_bins ⟨1, 0, 1, 0, 300⟩ = Except.ok 150 := by
  have hrp : (1 : ℝ) ^ ((1 : ℝ) / 3) = 1 := Real.one_rpow _
  dsimp only [num_bins]
  rw [if_neg (one_ne_zero : (1 : ℝ) ≠ 0)]
  rw [show (2 : ℝ) * (1 - 0) / (1 : ℝ) ^ ((1 : ℝ) / 3) = 2 by rw [hrp]; norm_num]
  rw [if_neg (by norm_num : (2 : ℝ) ≠ 0)]
  norm_num

/-- Claim C2: with `bins=None` the bin count rendered into the query is the
Freedman-Diaconis count capped at 50; an explicit positive integer is used
as-is, with no cap. -/
theorem counts_bins_cap_spec (t : TableModel) (descOf : String → Desc)
    (column : String) (hcol : t.numeric_columns.contains column = true) :
    (∀ fd : ℤ, num_bins (descOf column) = Except.ok fd →
        usedBins (counts t descOf column BinsArg.none) = some (min fd 50))
    ∧ (∀ n : ℤ, 0 < n →
        usedBins (counts t descOf column (BinsArg.int n)) = some n) := by
  constructor
  · intro fd hfd
    dsimp only [counts]
    rw [if_neg (by simp [binsInvalid])]
    rw [if_neg (by rw [hcol]; simp)]
    rw [show resolveBins (descOf column) BinsArg.none = Except.ok (min fd 50) by
      dsimp only [resolveBins]
      rw [hfd]
      rfl]
    rfl
  · intro n hn
    dsimp only [counts]
    rw [if_neg (by simp only [binsInvalid, decide_eq_true_eq]; omega)]
    rw [if_neg (by rw [hcol]; simp)]
    rfl

/-- Witness for C2: the demo description gives `fd = 150`, capped to 50;
an explicit `bins=100` is used uncapped. -/
theorem counts_bins_cap_spec_witness :
    usedBins (counts demoTable demoDescOf "a" BinsArg.none) = some (min 150 50)
    ∧ min (150 : ℤ) 50 = 50
    ∧ usedBins (counts demoTable demoDescOf "a" (BinsArg.int 100)) = some 100 :=
  ⟨(counts_bins_cap_spec demoTable demoDescOf "a" (by decide)).1 150 num_bins_eval300,
   by decide,
   (counts_bins_cap_spec demoTable demoDescOf "a" (by decide)).2 100 (by norm_num)⟩

/-- Claim C3: a non-positive or non-integer explicit `bins` argument raises
`ValueError` with no SQL executed, and a call on a column outside the
numeric columns (with a valid `bins` argument) raises a `ValueError` whose
message names the column, again with no SQL executed. -/
theorem counts_validation_spec (t : TableModel) (descOf : String → Desc)
    (column : String) :
    (∀ n : ℤ, n ≤ 0 →
        counts t descOf column (BinsArg.int n)
          = ([], Except.error (Err.valueError binsArgMsg)))
    ∧ (∀ x : ℚ,
        counts t descOf column (BinsArg.nonInt x)
          = ([], Except.error (Err.valueError binsArgMsg)))
    ∧ (∀ bins : BinsArg, binsInvalid bins = false →
        t.numeric_columns.contains column = false →
        counts t descOf column bins
          = ([], Except.error (Err.valueError
              ("The column " ++ column ++ " is not a numeric column of " ++ t.name)))) := by
  refine ⟨fun n hn => ?_, fun x => ?_, fun bins hb hc => ?_⟩
  · have hbi : binsInvalid (BinsArg.int n) = true := decide_eq_true hn
    dsimp only [counts]
    rw [if_pos hbi]
  · have hbi : binsInvalid (BinsArg.nonInt x) = true := rfl
    dsimp only [counts]
    rw [if_pos hbi]
  · dsimp only [counts]
    rw [if_neg (by rw [hb]; simp)]
    rw [if_pos (by rw [hc]; rfl)]
    rfl

/-- Witness for C3: `bins=0`, `bins=2.5`, and the non-numeric column `b`. -/
theorem counts_validation_spec_witness :
    counts demoTable demoDescOf "a" (BinsArg.int 0)
      = ([], Except.error (Err.valueError binsArgMsg))
    ∧ counts demoTable demoDescOf "a" (BinsArg.nonInt (5 / 2))
      = ([], Except.error (Err.valueError binsArgMsg))
    ∧ counts demoTable demoDescOf "b" BinsArg.none
      = ([], Except.error (Err.valueError
          ("The column " ++ "b" ++ " is not a numeric column of " ++ demoTable.name))) :=
  ⟨(counts_validation_spec demoTable demoDescOf "a").1 0 (by omega),
   (counts_validation_spec demoTable demoDescOf "a").2.1 (5 / 2),
   (counts_validation_spec demoTable demoDescOf "b").2.2 BinsArg.none rfl (by decide)⟩

end PgUtils
